import Mathlib

/-!
Shallow embedding of the tool-dispatch / query-resolution core of the
personal health assistant (`src/app.py`).

The embedding models:
  * calendar dates and `date.fromisoformat` / `date.isoformat` /
    `timedelta(days=n)` subtraction (`Date`, `parseDate`, `Date.isoformat`,
    `Date.subDays`);
  * Python numeric coercions `float(...)` / `int(...)` on strings
    (`parseFloat10`, `parseIntPy`), with weights modelled as rationals;
  * the fact store (three tables backed by lists) and the Supabase-style
    range / equality queries the tools issue;
  * the four tools `get_oura_sleep_score`, `get_oura_activity_steps`,
    `log_gym_set`, `get_readiness_report`;
  * the two-stage `process_query` pipeline, with the completion service
    modelled as `Except`-valued oracles, and instrumentation counting
    completion calls, store round trips and tool-body executions.

Python exception *texts* (TypeError/ValueError/IndexError/KeyError/NameError
messages) are modelled as fixed strings that approximate CPython's wording;
the claims only depend on which handler receives them, and the concrete
theorems are stated against the embedding's own message constants.
-/

/-- A calendar date `year-month-day` (proleptic Gregorian, as Python's
`datetime.date`). -/
structure Date where
  year : Nat
  month : Nat
  day : Nat
deriving DecidableEq, Repr

/-- Leap-year test, as Python's `calendar.isleap`. -/
def isLeap (y : Nat) : Bool :=
  y % 4 == 0 && (y % 100 != 0 || y % 400 == 0)

/-- Days in a month. -/
def daysInMonth (y m : Nat) : Nat :=
  if m == 2 then (if isLeap y then 29 else 28)
  else if m == 4 || m == 6 || m == 9 || m == 11 then 30
  else 31

/-- Lexicographic `<=` on dates; agrees with Python's `date` ordering and with
the string ordering of zero-padded ISO dates that the store's range filters
use. -/
def Date.le (a b : Date) : Bool :=
  decide (a.year < b.year) ||
    (a.year == b.year &&
      (decide (a.month < b.month) ||
        (a.month == b.month && decide (a.day ≤ b.day))))

/-- Lexicographic `<` on dates. -/
def Date.lt (a b : Date) : Bool :=
  Date.le a b && !(a == b)

/-- The previous calendar day. -/
def Date.pred (d : Date) : Date :=
  if d.day > 1 then ⟨d.year, d.month, d.day - 1⟩
  else if d.month > 1 then ⟨d.year, d.month - 1, daysInMonth d.year (d.month - 1)⟩
  else ⟨d.year - 1, 12, 31⟩

/-- Subtraction of days, as `d - timedelta(days = n)`. -/
def Date.subDays (d : Date) : Nat → Date
  | 0 => d
  | n + 1 => (Date.subDays d n).pred

/-- Zero-pad a number to two digits. -/
def pad2 (n : Nat) : String :=
  if n < 10 then "0" ++ toString n else toString n

/-- Zero-pad a number to four digits. -/
def pad4 (n : Nat) : String :=
  if n < 10 then "000" ++ toString n
  else if n < 100 then "00" ++ toString n
  else if n < 1000 then "0" ++ toString n
  else toString n

/-- Rendering as `date.isoformat()`: `YYYY-MM-DD`. -/
def Date.isoformat (d : Date) : String :=
  pad4 d.year ++ "-" ++ pad2 d.month ++ "-" ++ pad2 d.day

/-- Splitting on a single separator character, as Python's `str.split(sep)`
(structural recursion, so kernel reduction works on concrete inputs). -/
def splitCharAux (sep : Char) : List Char → List (List Char)
  | [] => [[]]
  | c :: cs =>
    match splitCharAux sep cs with
    | [] => [[c]]
    | h :: t => if c = sep then [] :: h :: t else (c :: h) :: t

/-- Python `s.split(sep)` for a one-character separator. -/
def pySplit (s : String) (sep : Char) : List String :=
  (splitCharAux sep s.data).map (fun l => ⟨l⟩)

/-- Python `s.strip()`. -/
def pyStrip (s : String) : String :=
  ⟨(((s.data.dropWhile Char.isWhitespace).reverse).dropWhile Char.isWhitespace).reverse⟩

/-- Python `s.startswith(p)`. -/
def pyStartsWith (s p : String) : Bool :=
  p.data.isPrefixOf s.data

/-- Drop the first `n` characters. -/
def pyDrop (s : String) (n : Nat) : String := ⟨s.data.drop n⟩

/-- Value of a digit string (all characters decimal digits, nonempty);
`none` otherwise. -/
def digitsValAux (acc : Nat) : List Char → Option Nat
  | [] => some acc
  | c :: cs => if c.isDigit then digitsValAux (acc * 10 + (c.toNat - 48)) cs else none

/-- Parse a nonempty all-digit string to a natural number. -/
def strToNat? (s : String) : Option Nat :=
  match s.data with
  | [] => none
  | l => digitsValAux 0 l

/-- Replacement of every occurrence of `pat` in a character list, fuelled by
the list length (Python `str.replace` semantics for a nonempty pattern). -/
def pyReplaceAux (pat repl : List Char) : Nat → List Char → List Char
  | _, [] => []
  | 0, l => l
  | fuel + 1, c :: cs =>
    if pat.isPrefixOf (c :: cs) then
      repl ++ pyReplaceAux pat repl fuel (cs.drop (pat.length - 1))
    else c :: pyReplaceAux pat repl fuel cs

/-- Python `s.replace(pat, repl)` for a nonempty pattern. -/
def pyReplace (s pat repl : String) : String :=
  if pat.data.isEmpty then s
  else ⟨pyReplaceAux pat.data repl.data s.data.length s.data⟩

/-- Parsing as `date.fromisoformat`: accepts the canonical zero-padded
`YYYY-MM-DD` form, returning `none` where Python raises `ValueError`. -/
def parseDate (s : String) : Option Date :=
  match pySplit s '-' with
  | [y, m, d] =>
    if y.length == 4 && m.length == 2 && d.length == 2 then
      match strToNat? y, strToNat? m, strToNat? d with
      | some yn, some mn, some dn =>
        if 1 ≤ mn && mn ≤ 12 && 1 ≤ dn && dn ≤ daysInMonth yn mn then
          some ⟨yn, mn, dn⟩
        else none
      | _, _, _ => none
    else none
  | _ => none

/-- Python `int(s)` on a trimmed string: optional sign followed by digits;
`none` where Python raises `ValueError`. -/
def parseIntPy (s : String) : Option Int :=
  if pyStartsWith s "-" then (strToNat? (pyDrop s 1)).map (fun n => -(n : Int))
  else if pyStartsWith s "+" then (strToNat? (pyDrop s 1)).map (fun n => (n : Int))
  else (strToNat? s).map (fun n => (n : Int))

/-- Digits of one part of a decimal literal: the empty string counts
as zero (Python accepts `".5"` and `"5."`). -/
def decPart (s : String) : Option Nat :=
  if s == "" then some 0 else strToNat? s

/-- Python `float(s)` on a trimmed plain decimal literal (optional sign,
digits, optional fractional digits), modelled exactly as a rational; `none`
where Python raises `ValueError`.  (Exponent forms and `inf`/`nan` are not
produced by the decision grammar and are rejected.) -/
def parseFloat10 (s : String) : Option ℚ :=
  let core := fun (t : String) =>
    match pySplit t '.' with
    | [i] => if i == "" then none else (strToNat? i).map (fun n => (n : ℚ))
    | [i, f] =>
      if i == "" && f == "" then none
      else
        match decPart i, decPart f with
        | some ni, some nf =>
          some ((ni : ℚ) + (nf : ℚ) / ((10 : ℚ) ^ f.length))
        | _, _ => none
    | _ => none
  if pyStartsWith s "-" then (core (pyDrop s 1)).map (fun q => -q)
  else if pyStartsWith s "+" then core (pyDrop s 1)
  else core s

/-- Reversed-digit walk inserting a separator after every third digit while
more digits remain. -/
def commaRevAux : List Char → Nat → List Char
  | [], _ => []
  | [c], _ => [c]
  | c :: cs, i =>
    if i % 3 = 2 then c :: ',' :: commaRevAux cs (i + 1)
    else c :: commaRevAux cs (i + 1)

/-- Render a natural number with thousands separators, as Python's
`f"{n:,}"`. -/
def commaFmtNat (n : Nat) : String :=
  ⟨(commaRevAux (toString n).data.reverse 0).reverse⟩

/-- Render an integer with thousands separators, as Python's `f"{n:,}"`. -/
def commaFmt (n : Int) : String :=
  if n < 0 then "-" ++ commaFmtNat n.natAbs else commaFmtNat n.natAbs

/-- Insert a decimal point `k` digits from the right of a digit string. -/
def insertPoint (digits : String) (k : Nat) : String :=
  let padded := if digits.length ≤ k then
    List.replicate (k + 1 - digits.length) '0' ++ digits.data
  else digits.data
  ⟨padded.take (padded.length - k) ++ '.' :: padded.drop (padded.length - k)⟩

/-- Render a rational produced by `parseFloat10` the way Python's `repr`
renders the corresponding float: shortest decimal expansion, with `".0"`
appended to integers.  (For rationals whose denominator divides no small
power of ten — unreachable from parsed decimal literals — a fraction is
rendered.) -/
def floatRepr (q : ℚ) : String :=
  let sign := if q < 0 then "-" else ""
  let a := |q|
  if a.den = 1 then sign ++ toString a.num ++ ".0"
  else
    match (List.range 40).find? (fun k => (a * (10 : ℚ) ^ k).den == 1) with
    | some k => sign ++ insertPoint (toString (a * (10 : ℚ) ^ k).num) k
    | none => sign ++ toString a.num ++ "/" ++ toString a.den

/-- A row of the `oura_sleep` table. -/
structure SleepRecord where
  day : Date
  score : Int
  total_sleep_duration : Int
  efficiency : Int
deriving DecidableEq, Repr

/-- A row of the `oura_activity` table. -/
structure ActivityRecord where
  day : Date
  steps : Int
  active_calories : Int
  score : Int
deriving DecidableEq, Repr

/-- A row of the `manual_workouts` table. -/
structure WorkoutRecord where
  workout_date : Date
  exercise_name : String
  weight_kg : ℚ
  repetitions : Int
  sets : Int
deriving DecidableEq, Repr

/-- The fact store: the three tables the tools read and write. -/
structure Store where
  oura_sleep : List SleepRecord
  oura_activity : List ActivityRecord
  manual_workouts : List WorkoutRecord
deriving DecidableEq, Repr

/-- A store with all three tables empty. -/
def emptyStore : Store := ⟨[], [], []⟩

/-- Insert into a list kept sorted newest-first by `key` (used to model the
store's `order(col, desc=True)`); ties keep their original relative order. -/
def insertDescBy (key : α → Date) (x : α) : List α → List α
  | [] => [x]
  | y :: ys => if Date.lt (key y) (key x) then x :: y :: ys else y :: insertDescBy key x ys

/-- Sort newest-first by `key`, stably. -/
def sortDescBy (key : α → Date) (l : List α) : List α :=
  l.foldl (fun acc x => insertDescBy key x acc) []

/-- Message text of Python's `ValueError` from `date.fromisoformat`. -/
def invalidIsoMsg (s : String) : String :=
  "Invalid isoformat string: \x27" ++ s ++ "\x27"

/-- Message text of the `NameError` raised by the undefined `summary_date`
reference in `get_oura_sleep_score`'s no-data branch (src/app.py line 116). -/
def nameErrorMsg : String :=
  "name \x27summary_date\x27 is not defined"

/-- Message text of Python's `ValueError` from `float(...)` on a bad string. -/
def floatErrMsg (s : String) : String :=
  "could not convert string to float: \x27" ++ s ++ "\x27"

/-- Message text of Python's `ValueError` from `int(...)` on a bad string. -/
def intErrMsg (s : String) : String :=
  "invalid literal for int() with base 10: \x27" ++ s ++ "\x27"

/-- Message text of Python's `IndexError` on list subscripts. -/
def indexErrorMsg : String := "list index out of range"

/-- Rendering of a Python `KeyError` when interpolated into an f-string. -/
def keyErrorMsg (k : String) : String := "\x27" ++ k ++ "\x27"

/-- Message standing for the `TypeError` CPython raises when a tool function
is called with the wrong number of positional arguments (exact CPython
wording varies with the argument count; only the receiving handler matters). -/
def arityMsg (name : String) : String :=
  name ++ "() received a wrong number of positional arguments"

/-- Tool `get_oura_sleep_score` (src/app.py lines 98-118).  The query selects
only `day, score`, ordered newest-first with `limit(7)`, and applies no date
filter; the no-data branch references the undefined name `summary_date`, so
its `NameError` is caught by the tool's own handler.  Returns the result
string and the number of store round trips performed. -/
def get_oura_sleep_score (store : Store) (day : String) : String × Nat :=
  match parseDate day with
  | none => ("Error while fetching sleep data: " ++ invalidIsoMsg day, 0)
  | some _ =>
    match (sortDescBy SleepRecord.day store.oura_sleep).take 7 with
    | [] => ("Error while fetching sleep data: " ++ nameErrorMsg, 1)
    | r :: _ =>
      ("Sleep data for " ++ day ++ ":" ++
        "\n- Score: " ++ toString r.score ++
        "\n- Efficiency: N/A%", 1)

/-- Tool `get_oura_activity_steps` (src/app.py lines 121-137): equality query
on the parsed day; descriptive strings on no data or a bad date. -/
def get_oura_activity_steps (store : Store) (day : String) : String × Nat :=
  match parseDate day with
  | none => ("Error while fetching activity data: " ++ invalidIsoMsg day, 0)
  | some d =>
    match store.oura_activity.filter (fun r => r.day == d) with
    | [] => ("No activity data found for " ++ day ++ ".", 1)
    | r :: _ =>
      ("Activity data for " ++ day ++ ":" ++
        "\n- Steps: " ++ commaFmt r.steps ++
        "\n- Active calories: " ++ toString r.active_calories ++
        "\n- Activity score: " ++ toString r.score, 1)

/-- Fixed validation-failure string of `log_gym_set` (src/app.py line 148). -/
def validationMsg : String :=
  "Error: Missing or invalid workout parameters. Please check exercise name, weight, reps, and set number."

/-- Fixed string returned when `log_gym_set`'s own handler catches an
exception (src/app.py line 167). -/
def internalLogErrorMsg : String :=
  "An internal error occurred while trying to log the workout."

/-- Confirmation string of a successful `log_gym_set` (src/app.py line 163). -/
def logConfirmMsg (date_str exercise : String) (weight : ℚ) (reps sets : Int) : String :=
  "Successfully logged Set " ++ toString sets ++ " of " ++ exercise ++
    " (" ++ floatRepr weight ++ "kg x " ++ toString reps ++ " reps) for " ++ date_str ++ "."

/-- Tool `log_gym_set` called with correctly typed arguments (src/app.py
lines 140-167): validates the date, then the exercise name and positivity of
the numeric fields, and inserts exactly one row on success.  Returns the
result string, the updated store, and the number of store round trips. -/
def log_gym_set (store : Store) (date_str exercise : String) (weight : ℚ)
    (reps sets : Int) : String × Store × Nat :=
  match parseDate date_str with
  | none => (internalLogErrorMsg, store, 0)
  | some d =>
    if exercise ≠ "" ∧ 0 < weight ∧ 0 < reps ∧ 0 < sets then
      (logConfirmMsg date_str exercise weight reps sets,
        { store with manual_workouts := store.manual_workouts ++ [⟨d, exercise, weight, reps, sets⟩] },
        1)
    else (validationMsg, store, 0)

/-- Tool `log_gym_set` called with five *string* arguments, as the dispatch
stage's first (uncoerced) invocation does: `date.fromisoformat` may raise
(caught by the tool); with a non-empty exercise string, Python's
`weight > 0` comparison between `str` and `int` raises `TypeError`, caught
by the tool's handler.  No row is ever inserted on this path. -/
def log_gym_set_dynamic (store : Store) (date_str exercise _weight _reps _sets : String) :
    String × Store × Nat :=
  match parseDate date_str with
  | none => (internalLogErrorMsg, store, 0)
  | some _ =>
    if exercise = "" then (validationMsg, store, 0)
    else (internalLogErrorMsg, store, 0)

/-- Date-window computation of `get_readiness_report` (src/app.py lines
178-193): each bound independently falls back — a missing or empty end date
(Python truthiness) or an unparseable one becomes `today`, a missing, empty
or unparseable start date becomes `end - 3 days`.  No `start <= end` check
is performed. -/
def readinessWindow (start_date end_date : Option String) (today : Date) : Date × Date :=
  let e := match end_date with
    | some s => if s = "" then today else (parseDate s).getD today
    | none => today
  let st := match start_date with
    | some s => if s = "" then e.subDays 3 else (parseDate s).getD (e.subDays 3)
    | none => e.subDays 3
  (st, e)

/-- Membership of a day in the inclusive readiness window. -/
def inWindow (st en d : Date) : Bool := Date.le st d && Date.le d en

/-- Rendering of one sleep row in the readiness report (src/app.py line 212). -/
def sleepLine (r : SleepRecord) : String :=
  " - " ++ r.day.isoformat ++ ": Score " ++ toString r.score ++
    ", Duration " ++ toString (r.total_sleep_duration.fdiv 3600) ++ "h " ++
    toString ((r.total_sleep_duration.fmod 3600).fdiv 60) ++ "m, Efficiency " ++
    toString r.efficiency ++ "%\n"

/-- Rendering of one activity row in the readiness report (src/app.py line 220). -/
def activityLine (r : ActivityRecord) : String :=
  " - " ++ r.day.isoformat ++ ": Steps " ++ commaFmt r.steps ++
    ", Calories " ++ toString r.active_calories ++ ", Score " ++ toString r.score ++ "\n"

/-- Value stored per exercise by the report's per-exercise maximum loop. -/
structure ExEntry where
  weight : ℚ
  reps : Int
  date : Date
deriving DecidableEq, Repr

/-- The entry the loop stores for a workout record. -/
def entryOf (r : WorkoutRecord) : ExEntry :=
  ⟨r.weight_kg, r.repetitions, r.workout_date⟩

/-- First-match lookup in an association list, as a Python dict read. -/
def lookupEx (n : String) : List (String × ExEntry) → Option ExEntry
  | [] => none
  | (k, v) :: t => if k = n then some v else lookupEx n t

/-- One iteration of the per-exercise maximum loop (src/app.py lines
229-237): a new exercise name is appended (Python dict insertion order); an
existing one is replaced in place only when the new weight is strictly
greater. -/
def updateExercises (acc : List (String × ExEntry)) (r : WorkoutRecord) :
    List (String × ExEntry) :=
  match lookupEx r.exercise_name acc with
  | none => acc ++ [(r.exercise_name, entryOf r)]
  | some e =>
    if e.weight < r.weight_kg then
      acc.map (fun p => if p.1 = r.exercise_name then (r.exercise_name, entryOf r) else p)
    else acc

/-- The per-exercise maximum table built from the (newest-first) workout
rows. -/
def buildExercises (rs : List WorkoutRecord) : List (String × ExEntry) :=
  rs.foldl updateExercises []

/-- Rendering of the per-exercise maxima (src/app.py lines 239-240). -/
def workoutLines (rs : List WorkoutRecord) : String :=
  (buildExercises rs).foldl
    (fun s p => s ++ " - " ++ p.1 ++ ": Max " ++ floatRepr p.2.weight ++ "kg x " ++
      toString p.2.reps ++ " reps on " ++ p.2.date.isoformat ++ "\n") ""

/-- The sentinel string of `get_readiness_report` (src/app.py line 245). -/
def noDataSentinel : String :=
  "No recent Oura or manual workout data found to generate advice."

/-- Tool `get_readiness_report` (src/app.py lines 170-252): computes the
window, issues the three range queries (newest-first), renders the three
sections — an empty section renders a fixed placeholder — and finally
compares the accumulated report against the bare header to decide whether
to return the sentinel.  Returns the result string and the round-trip
count (the three queries). -/
def readinessReportText (store : Store) (start_date end_date : Option String)
    (today : Date) : String :=
  let w := readinessWindow start_date end_date today
  let sleepRows := sortDescBy SleepRecord.day
    (store.oura_sleep.filter (fun r => inWindow w.1 w.2 r.day))
  let activityRows := sortDescBy ActivityRecord.day
    (store.oura_activity.filter (fun r => inWindow w.1 w.2 r.day))
  let workoutRows := sortDescBy WorkoutRecord.workout_date
    (store.manual_workouts.filter (fun r => inWindow w.1 w.2 r.workout_date))
  let header := "--- HEALTH READINESS REPORT (" ++ w.1.isoformat ++ " to " ++
    w.2.isoformat ++ ") ---\n"
  let report := header ++
    (if sleepRows.isEmpty then "\nSLEEP SUMMARY: No data available\n"
     else "\nSLEEP SUMMARY:\n" ++ sleepRows.foldl (fun s r => s ++ sleepLine r) "") ++
    (if activityRows.isEmpty then "\nACTIVITY SUMMARY: No data available\n"
     else "\nACTIVITY SUMMARY:\n" ++ activityRows.foldl (fun s r => s ++ activityLine r) "") ++
    (if workoutRows.isEmpty then "\nRECENT WORKOUTS: No data available\n"
     else "\nRECENT WORKOUTS:\n" ++ workoutLines workoutRows)
  if report = header then noDataSentinel else report

/-- Tool `get_readiness_report` as invoked: the rendered text plus the
round-trip count of its three queries. -/
def get_readiness_report (store : Store) (start_date end_date : Option String)
    (today : Date) : String × Nat :=
  (readinessReportText store start_date end_date today, 3)

/-- The user profile as read out of `polar_token.json`: every field optional,
mirroring a Python dict that may lack keys (src/app.py lines 74-89). -/
structure UserProfile where
  age : Option Int
  weight : Option Int
  height : Option Int
  gender : Option String
deriving DecidableEq, Repr

/-- Contents of `polar_token.json` as far as the profile loader reads it:
four optional registration fields. -/
structure TokenData where
  age : Option Int
  weight : Option Int
  height : Option Int
  gender : Option String
deriving DecidableEq, Repr

/-- Startup profile loading (src/app.py lines 74-89): with a readable token
file each field falls back to its documented default (35, 59, 162, FEMALE);
with a missing or unreadable file the handler only prints a warning and
`USER_PROFILE` keeps its initial value, the empty dict. -/
def loadUserProfile : Option TokenData → UserProfile
  | none => ⟨none, none, none, none⟩
  | some t =>
    ⟨some (t.age.getD 35), some (t.weight.getD 59), some (t.height.getD 162),
      some (t.gender.getD "FEMALE")⟩

/-- Reply built by the dispatch-stage exception handler (src/app.py line 372). -/
def execErrorMsg (e : String) : String :=
  "Sorry, I ran into an error trying to execute the action. Please check the date format or simplify your request. Error: " ++ e

/-- Reply built by the outer exception handler (src/app.py line 384). -/
def criticalErrorMsg (e : String) : String :=
  "Sorry, I encountered a critical error: " ++ e

/-- Fixed reply for a decision matching neither grammar (src/app.py line 379). -/
def malformedMsg : String :=
  "Sorry, I couldn\x27t understand the AI\x27s response format. Try asking a specific question about sleep, activity, or logging a set."

/-- Fixed reply for an unregistered tool name (src/app.py line 319). -/
def toolNotFoundMsg (n : String) : String :=
  "Error: Tool \x27" ++ n ++ "\x27 not found."

/-- Membership in `tools_dict` (src/app.py lines 255-260). -/
def knownTool (n : String) : Bool :=
  n == "get_oura_sleep_score" || n == "get_oura_activity_steps" ||
    n == "log_gym_set" || n == "get_readiness_report"

/-- The coaching instruction block (src/app.py lines 351-358): built only for
the readiness tool, reading `USER_PROFILE['age'/'weight'/'height']` in that
order; a missing key raises `KeyError` (modelled as the error case). -/
def coachingBlock (tool_name : String) (p : UserProfile) : Except String String :=
  if tool_name = "get_readiness_report" then
    match p.age with
    | none => .error (keyErrorMsg "age")
    | some a =>
      match p.weight with
      | none => .error (keyErrorMsg "weight")
      | some w =>
        match p.height with
        | none => .error (keyErrorMsg "height")
        | some h =>
          .ok ("\nUSER PROFILE: Age " ++ toString a ++ ", Weight " ++ toString w ++
            "kg, Height " ++ toString h ++ "cm. " ++
            "\nUse the data and this profile information to provide specific, actionable training advice: " ++
            "1. Suggest a good training intensity (e.g., heavy, light, or rest day). 2. Recommend a focus (e.g., recovery or volume). " ++
            "3. Base advice on low sleep scores (<70) or low total sleep duration (<7h) indicating a strong need for recovery.")
  else .ok ""

/-- The synthesis prompt (src/app.py lines 360-364). -/
def formatPrompt (tool_result user_query coaching : String) : String :=
  "Based on this data:\n" ++ tool_result ++
    "\nProvide a friendly, natural, conversational answer to the user request: \"" ++
    user_query ++ "\"\n" ++ coaching ++
    "\nBe concise, warm, and helpful. Do not mention the word \x27tool\x27 or \x27database\x27. Just give a natural response."

/-- Adapter packaging a read-only tool call as (result, unchanged store,
round trips): the sleep tool invoked through the dispatcher. -/
def sleepCall (store : Store) (d : String) : String × Store × Nat :=
  ((get_oura_sleep_score store d).1, store, (get_oura_sleep_score store d).2)

/-- Adapter for the activity tool invoked through the dispatcher. -/
def activityCall (store : Store) (d : String) : String × Store × Nat :=
  ((get_oura_activity_steps store d).1, store, (get_oura_activity_steps store d).2)

/-- Adapter for the readiness tool invoked through the dispatcher. -/
def reportCall (store : Store) (sd ed : Option String) (today : Date) :
    String × Store × Nat :=
  ((get_readiness_report store sd ed today).1, store,
    (get_readiness_report store sd ed today).2)

/-- A Python call `tool.func(*args)` with string arguments: an arity mismatch
raises `TypeError` before the body runs (the `Except.error` case); otherwise
the tool body executes and yields its string, the possibly updated store and
its round-trip count. -/
def callToolStrings (name : String) (args : List String) (store : Store)
    (today : Date) : Except String (String × Store × Nat) :=
  if name = "get_oura_sleep_score" then
    match args with
    | [d] => .ok (sleepCall store d)
    | _ => .error (arityMsg name)
  else if name = "get_oura_activity_steps" then
    match args with
    | [d] => .ok (activityCall store d)
    | _ => .error (arityMsg name)
  else if name = "log_gym_set" then
    match args with
    | [a, b, c, d, e] => .ok (log_gym_set_dynamic store a b c d e)
    | _ => .error (arityMsg name)
  else if name = "get_readiness_report" then
    match args with
    | [] => .ok (reportCall store none none today)
    | [a] => .ok (reportCall store (some a) none today)
    | [a, b] => .ok (reportCall store (some a) (some b) today)
    | _ => .error (arityMsg name)
  else .error (arityMsg name)

/-- The per-tool second invocation (src/app.py lines 326-346): `log_gym_set`
coerces `tool_inputs[0..4]` positionally — subscripts and coercions evaluated
left to right, raising `IndexError`/`ValueError` as CPython does —
`get_readiness_report` receives the first one or two raw inputs, and every
other tool is re-invoked with all raw (untrimmed-of-empties) inputs. -/
def secondCall (tool_name : String) (tool_inputs : List String) (store : Store)
    (today : Date) : Except String (String × Store × Nat) :=
  if tool_name = "log_gym_set" then
    match tool_inputs with
    | a :: b :: c :: rest =>
      match parseFloat10 c with
      | none => .error (floatErrMsg c)
      | some w =>
        match rest with
        | d :: rest2 =>
          match parseIntPy d with
          | none => .error (intErrMsg d)
          | some r =>
            match rest2 with
            | e :: _ =>
              match parseIntPy e with
              | none => .error (intErrMsg e)
              | some s => .ok (log_gym_set store a b w r s)
            | [] => .error indexErrorMsg
        | [] => .error indexErrorMsg
    | _ => .error indexErrorMsg
  else if tool_name = "get_readiness_report" then
    match tool_inputs with
    | a :: b :: _ => .ok (reportCall store (some a) (some b) today)
    | [a] => .ok (reportCall store (some a) none today)
    | [] => .ok (reportCall store none none today)
  else callToolStrings tool_name tool_inputs store today

/-- Outcome of one `process_query` run: the reply shown to the user, the
final store, and instrumentation — completion-service calls made,
store round trips performed, and tool *bodies* executed. -/
structure RunResult where
  reply : String
  store : Store
  llmCalls : Nat
  storeTrips : Nat
  toolInvocations : Nat
deriving DecidableEq, Repr

/-- The dispatch stage after the decision line has been split and trimmed
(src/app.py lines 316-366): unknown tools short-circuit; otherwise the tool
is first invoked with empty fields dropped (result discarded), then invoked
per the tool-specific branch, then the synthesis completion runs; any
exception along the way is converted by the handler of line 368 into the
`execErrorMsg` reply.  `llmCalls` includes the decision call. -/
def dispatchParsed (user_query tool_name : String) (tool_inputs : List String)
    (synth : String → Except String String) (store : Store) (today : Date)
    (profile : UserProfile) : RunResult :=
  if knownTool tool_name then
    match callToolStrings tool_name (tool_inputs.filter (fun i => i != "")) store today with
    | .error e => ⟨execErrorMsg e, store, 1, 0, 0⟩
    | .ok (_res1, store1, t1) =>
      match secondCall tool_name tool_inputs store1 today with
      | .error e => ⟨execErrorMsg e, store1, 1, t1, 1⟩
      | .ok (res2, store2, t2) =>
        match coachingBlock tool_name profile with
        | .error e => ⟨execErrorMsg e, store2, 1, t1 + t2, 2⟩
        | .ok coaching =>
          match synth (formatPrompt res2 user_query coaching) with
          | .error e => ⟨execErrorMsg e, store2, 2, t1 + t2, 2⟩
          | .ok ans => ⟨ans, store2, 2, t1 + t2, 2⟩
  else ⟨toolNotFoundMsg tool_name, store, 1, 0, 0⟩

/-- Parsing of a `TOOL_CALL` decision line (src/app.py lines 312-314): split
on `|`, tool name from position 1, trimmed inputs from positions 2+; fewer
than two fields raise `IndexError`, converted by the dispatch handler. -/
def dispatchToolCall (user_query decision : String)
    (synth : String → Except String String) (store : Store) (today : Date)
    (profile : UserProfile) : RunResult :=
  match pySplit decision '|' with
  | _ :: p1 :: rest =>
    dispatchParsed user_query (pyStrip p1) (rest.map pyStrip) synth store today profile
  | _ => ⟨execErrorMsg indexErrorMsg, store, 1, 0, 0⟩

/-- The two-stage pipeline `process_query` (src/app.py lines 264-384).  The
decision completion is modelled by its `Except`-valued outcome (`.error` =
the request raised; caught by the outer handler), the synthesis completion
by an `Except`-valued oracle.  Every exception is caught inside, so the
function is total and always yields a reply string. -/
def processQuery (user_query : String) (decisionRes : Except String String)
    (synth : String → Except String String) (store : Store) (today : Date)
    (profile : UserProfile) : RunResult :=
  match decisionRes with
  | .error e => ⟨criticalErrorMsg e, store, 1, 0, 0⟩
  | .ok d0 =>
    if pyStartsWith (pyStrip d0) "ACTION: TOOL_CALL" then
      dispatchToolCall user_query (pyStrip d0) synth store today profile
    else if pyStartsWith (pyStrip d0) "ACTION: DIRECT_ANSWER" then
      ⟨pyStrip (pyReplace (pyStrip d0) "ACTION: DIRECT_ANSWER |" ""), store, 1, 0, 0⟩
    else ⟨malformedMsg, store, 1, 0, 0⟩

/-- Specification-side description of the per-exercise aggregation, following
the spec's words: walking the (newest-first) records, "retain only the record
with the highest weight, ties broken by first-seen" — the record kept so far
is replaced only by a strictly heavier one. -/
def maxWeightFirst (l : List WorkoutRecord) : Option WorkoutRecord :=
  l.foldl
    (fun acc r =>
      match acc with
      | none => some r
      | some m => if m.weight_kg < r.weight_kg then some r else some m)
    none

/-- The effect of one loop iteration on the entry stored under a fixed
exercise name (the single-key restriction of `updateExercises`). -/
def pickEntry (o : Option ExEntry) (r : WorkoutRecord) : Option ExEntry :=
  match o with
  | none => some (entryOf r)
  | some e => if e.weight < r.weight_kg then some (entryOf r) else some e

/-- C1: for a readiness window in which all three queries return zero
records, `get_readiness_report` does NOT return the "no data found"
sentinel: the three placeholder sections have already been appended, so the
final comparison against the bare header never fires and the three-section
template is returned.  (Evaluates the code at the failing input of the
claim; the placeholder half of the claim is visible in the rendered
template.) -/
theorem c1_readiness_all_empty_returns_template :
    (get_readiness_report emptyStore none none ⟨2025, 6, 10⟩).1 =
      "--- HEALTH READINESS REPORT (2025-06-07 to 2025-06-10) ---\n\nSLEEP SUMMARY: No data available\n\nACTIVITY SUMMARY: No data available\n\nRECENT WORKOUTS: No data available\n"
    ∧ (get_readiness_report emptyStore none none ⟨2025, 6, 10⟩).1 ≠ noDataSentinel :=
  ⟨rfl, by decide⟩

/-- C6: with zero matching records, `get_oura_sleep_score` does not return
the informative no-data string naming the requested date — its no-data
branch references the undefined `summary_date`, so the caught `NameError`
yields an error string instead; `get_oura_activity_steps` does return the
no-data string; and the sleep tool ignores the requested date, reporting
another day's record under the requested date's heading. -/
theorem c6_sleep_no_data_name_error :
    (get_oura_sleep_score emptyStore "2025-03-01").1 =
      "Error while fetching sleep data: " ++ nameErrorMsg
    ∧ (get_oura_sleep_score emptyStore "2025-03-01").1 ≠
        "No Oura sleep data found for 2025-03-01."
    ∧ (get_oura_activity_steps emptyStore "2025-03-01").1 =
        "No activity data found for 2025-03-01."
    ∧ (get_oura_sleep_score ⟨[⟨⟨2025, 2, 27⟩, 80, 0, 0⟩], [], []⟩ "2025-03-01").1 =
        "Sleep data for 2025-03-01:\n- Score: 80\n- Efficiency: N/A%" :=
  ⟨rfl, by decide, rfl, rfl⟩

/-- C9: with the profile file missing, the loader leaves the profile EMPTY
(not defaulted), so a later readiness query dies with `KeyError: 'age'`,
converted into the dispatch error reply; per-field defaulting works only
when the file itself loads. -/
theorem c9_profile_missing_file_not_defaulted :
    loadUserProfile none = ⟨none, none, none, none⟩
    ∧ loadUserProfile (some ⟨none, none, none, none⟩) =
        ⟨some 35, some 59, some 162, some "FEMALE"⟩
    ∧ (processQuery "How ready am I?"
        (.ok "ACTION: TOOL_CALL | get_readiness_report")
        (fun p => .ok p) emptyStore ⟨2025, 6, 10⟩ (loadUserProfile none)).reply =
      execErrorMsg (keyErrorMsg "age") :=
  ⟨rfl, rfl, rfl⟩

/-- C2 counterexample: a decision line for `get_oura_sleep_score` with an
empty argument field does NOT have the field dropped in the reply-producing
invocation: the second call receives both fields, hits the arity
`TypeError`, and the reply is the dispatch error string rather than a
synthesized answer. -/
theorem c2_counterexample_empty_field_not_dropped :
    (processQuery "q" (.ok "ACTION: TOOL_CALL | get_oura_sleep_score || 2025-03-01")
      (fun p => .ok ("SYN:" ++ p)) emptyStore ⟨2025, 6, 10⟩
      (loadUserProfile (some ⟨none, none, none, none⟩))).reply =
      execErrorMsg (arityMsg "get_oura_sleep_score")
    ∧ ¬ pyStartsWith (processQuery "q"
        (.ok "ACTION: TOOL_CALL | get_oura_sleep_score || 2025-03-01")
        (fun p => .ok ("SYN:" ++ p)) emptyStore ⟨2025, 6, 10⟩
        (loadUserProfile (some ⟨none, none, none, none⟩))).reply "SYN:" = true :=
  ⟨rfl, by decide⟩

/-- C3 counterexample: a single plain sleep query performs TWO store round
trips (the tool body runs twice), refuting the at-most-one bound. -/
theorem c3_counterexample_two_store_trips :
    (processQuery "q" (.ok "ACTION: TOOL_CALL | get_oura_sleep_score | 2025-03-01")
      (fun p => .ok ("SYN:" ++ p)) emptyStore ⟨2025, 6, 10⟩
      (loadUserProfile (some ⟨none, none, none, none⟩))).storeTrips = 2 :=
  rfl

/-- C5 counterexample: a synthesis-stage failure is converted INSIDE
`process_query` into the dispatch-stage error reply string — nothing
propagates to the caller (`processQuery` returns normally). -/
theorem c5_counterexample_synthesis_failure_converted :
    (processQuery "q" (.ok "ACTION: TOOL_CALL | get_oura_sleep_score | 2025-03-01")
      (fun _ => .error "service unavailable") emptyStore ⟨2025, 6, 10⟩
      (loadUserProfile (some ⟨none, none, none, none⟩))).reply =
      execErrorMsg "service unavailable" :=
  rfl

/-- C10 counterexample: a `log_gym_set` decision whose weight field fails
float coercion executes the tool body only ONCE (the first, cleaned-args
call), not twice. -/
theorem c10_counterexample_single_invocation :
    (processQuery "q" (.ok "ACTION: TOOL_CALL | log_gym_set | 2025-03-01 | Squat | abc | 5 | 3")
      (fun p => .ok ("SYN:" ++ p)) emptyStore ⟨2025, 6, 10⟩
      (loadUserProfile (some ⟨none, none, none, none⟩))).toolInvocations = 1
    ∧ (processQuery "q" (.ok "ACTION: TOOL_CALL | log_gym_set | 2025-03-01 | Squat | abc | 5 | 3")
        (fun p => .ok ("SYN:" ++ p)) emptyStore ⟨2025, 6, 10⟩
        (loadUserProfile (some ⟨none, none, none, none⟩))).reply =
      execErrorMsg (floatErrMsg "abc") :=
  ⟨rfl, rfl⟩

/-- C4 counterexample: two parseable dates with start after end are used
as-is — no `start <= end` check discards them in favour of the default
window. -/
theorem c4_counterexample_inverted_window_kept :
    readinessWindow (some "2025-01-10") (some "2025-01-01") ⟨2025, 2, 1⟩ =
      (⟨2025, 1, 10⟩, ⟨2025, 1, 1⟩)
    ∧ Date.le ⟨2025, 1, 10⟩ ⟨2025, 1, 1⟩ = false
    ∧ readinessWindow (some "2025-01-10") (some "2025-01-01") ⟨2025, 2, 1⟩ ≠
      (Date.subDays ⟨2025, 2, 1⟩ 3, ⟨2025, 2, 1⟩) :=
  ⟨rfl, rfl, by decide⟩

theorem lookupEx_append_some (n : String) (l₁ l₂ : List (String × ExEntry)) (v : ExEntry)
    (h : lookupEx n l₁ = some v) : lookupEx n (l₁ ++ l₂) = some v := by
  induction l₁ with
  | nil => simp [lookupEx] at h
  | cons p t ih =>
    obtain ⟨k0, v0⟩ := p
    by_cases hp : k0 = n
    · simp [lookupEx, hp] at h ⊢; exact h
    · simp [lookupEx, hp] at h ⊢; exact ih h

theorem lookupEx_append_none (n : String) (l₁ l₂ : List (String × ExEntry))
    (h : lookupEx n l₁ = none) : lookupEx n (l₁ ++ l₂) = lookupEx n l₂ := by
  induction l₁ with
  | nil => rfl
  | cons p t ih =>
    obtain ⟨k0, v0⟩ := p
    by_cases hp : k0 = n
    · simp [lookupEx, hp] at h
    · simp [lookupEx, hp] at h ⊢; exact ih h

theorem lookupEx_replace_self (n : String) (v' : ExEntry) (l : List (String × ExEntry))
    (h : (lookupEx n l).isSome) :
    lookupEx n (l.map fun p => if p.1 = n then (n, v') else p) = some v' := by
  induction l with
  | nil => simp [lookupEx] at h
  | cons p t ih =>
    obtain ⟨k0, v0⟩ := p
    simp only [List.map_cons]
    by_cases hp : k0 = n
    · rw [if_pos hp]
      simp [lookupEx]
    · rw [if_neg hp]
      simp only [lookupEx, if_neg hp]
      simp only [lookupEx, if_neg hp] at h
      exact ih h

theorem lookupEx_replace_other (n k : String) (hkn : k ≠ n) (v' : ExEntry)
    (l : List (String × ExEntry)) :
    lookupEx n (l.map fun p => if p.1 = k then (k, v') else p) = lookupEx n l := by
  induction l with
  | nil => rfl
  | cons p t ih =>
    obtain ⟨k0, v0⟩ := p
    simp only [List.map_cons]
    by_cases hp : k0 = k
    · rw [if_pos hp]
      subst hp
      simp [lookupEx, hkn, ih]
    · rw [if_neg hp]
      by_cases hpn : k0 = n <;> simp [lookupEx, hpn, ih]

theorem lookupEx_updateExercises (n : String) (acc : List (String × ExEntry))
    (r : WorkoutRecord) :
    lookupEx n (updateExercises acc r) =
      if r.exercise_name = n then pickEntry (lookupEx n acc) r else lookupEx n acc := by
  unfold updateExercises
  by_cases hn : r.exercise_name = n
  · rw [if_pos hn]
    cases h : lookupEx r.exercise_name acc with
    | none =>
      rw [hn] at h
      rw [lookupEx_append_none _ _ _ h]
      simp [pickEntry, h, lookupEx, hn]
    | some e =>
      have h2 := h; rw [hn] at h2
      simp only [pickEntry, h2]
      by_cases hw : e.weight < r.weight_kg
      · simp only [if_pos hw]
        rw [hn]
        exact lookupEx_replace_self _ _ _ (by simp [h2])
      · simp [hw, h2]
  · rw [if_neg hn]
    cases h : lookupEx r.exercise_name acc with
    | none =>
      cases h2 : lookupEx n acc with
      | none =>
        rw [lookupEx_append_none _ _ _ h2]
        simp [lookupEx, hn]
      | some v =>
        exact lookupEx_append_some _ _ _ _ h2
    | some e =>
      by_cases hw : e.weight < r.weight_kg
      · simp only [if_pos hw]
        exact lookupEx_replace_other _ _ hn _ _
      · simp [hw]

theorem foldl_update_lookup (rs : List WorkoutRecord) (n : String)
    (acc : List (String × ExEntry)) :
    lookupEx n (rs.foldl updateExercises acc) =
      (rs.filter fun r => r.exercise_name == n).foldl pickEntry (lookupEx n acc) := by
  induction rs generalizing acc with
  | nil => rfl
  | cons r t ih =>
    simp only [List.foldl_cons, List.filter_cons]
    by_cases h : r.exercise_name = n
    · rw [if_pos (by simp [h])]
      rw [List.foldl_cons, ih, lookupEx_updateExercises, if_pos h]
    · rw [if_neg (by simp [h])]
      rw [ih, lookupEx_updateExercises, if_neg h]

theorem foldl_pickEntry_map (l : List WorkoutRecord) :
    ∀ o : Option WorkoutRecord,
      l.foldl pickEntry (o.map entryOf) =
        (l.foldl (fun acc r => match acc with
          | none => some r
          | some m => if m.weight_kg < r.weight_kg then some r else some m) o).map entryOf := by
  induction l with
  | nil => intro o; rfl
  | cons r t ih =>
    intro o
    cases o with
    | none =>
      simp only [List.foldl_cons, Option.map_none]
      have : pickEntry none r = (some r).map entryOf := rfl
      rw [show (Option.map entryOf none : Option ExEntry) = none from rfl] at *
      show t.foldl pickEntry (pickEntry none r) = _
      rw [this, ih (some r)]
    | some m =>
      simp only [List.foldl_cons]
      by_cases hw : m.weight_kg < r.weight_kg
      · have h1 : pickEntry ((some m).map entryOf) r = (some r).map entryOf := by
          simp [pickEntry, entryOf, hw]
        rw [h1, ih (some r), if_pos hw]
      · have h1 : pickEntry ((some m).map entryOf) r = (some m).map entryOf := by
          simp [pickEntry, entryOf, hw]
        rw [h1, ih (some m), if_neg hw]

/-- C8: the per-exercise table built by `get_readiness_report`'s loop
refines the spec's rule — for every exercise name, the retained entry is
exactly the first-seen (most recent, since input is newest-first) record of
strictly maximal weight among that name's records; in particular the
100kg/day-2 Bench Press record wins over 80kg/day-1, and on equal weights
the more recent record is kept. -/
theorem c8_per_exercise_max_refinement :
    (∀ (rs : List WorkoutRecord) (n : String),
      lookupEx n (buildExercises rs) =
        (maxWeightFirst (rs.filter fun r => r.exercise_name == n)).map entryOf)
    ∧ buildExercises
        [⟨⟨2025, 1, 2⟩, "Bench Press", 100, 3, 1⟩, ⟨⟨2025, 1, 1⟩, "Bench Press", 80, 5, 2⟩] =
        [("Bench Press", ⟨100, 3, ⟨2025, 1, 2⟩⟩)]
    ∧ buildExercises
        [⟨⟨2025, 1, 2⟩, "Squat", 90, 5, 1⟩, ⟨⟨2025, 1, 1⟩, "Squat", 90, 3, 1⟩] =
        [("Squat", ⟨90, 5, ⟨2025, 1, 2⟩⟩)] := by
  refine ⟨?_, ?_, ?_⟩
  · intro rs n
    rw [buildExercises, foldl_update_lookup]
    have h0 : lookupEx n ([] : List (String × ExEntry)) =
        (Option.map entryOf (none : Option WorkoutRecord)) := rfl
    rw [h0, foldl_pickEntry_map, maxWeightFirst]
  · rfl
  · rfl

theorem sleep_trips_le (st : Store) (d : String) : (get_oura_sleep_score st d).2 ≤ 1 := by
  unfold get_oura_sleep_score
  split
  · simp
  · split <;> simp

theorem activity_trips_le (st : Store) (d : String) : (get_oura_activity_steps st d).2 ≤ 1 := by
  unfold get_oura_activity_steps
  split
  · simp
  · split <;> simp

theorem log_trips_le (st : Store) (a b : String) (w : ℚ) (r s : Int) :
    (log_gym_set st a b w r s).2.2 ≤ 1 := by
  unfold log_gym_set
  split
  · simp
  · split <;> simp

theorem dynamic_trips_eq (st : Store) (a b c d e : String) :
    (log_gym_set_dynamic st a b c d e).2.2 = 0 := by
  unfold log_gym_set_dynamic
  split
  · rfl
  · split <;> rfl

theorem sleepCall_trips (st : Store) (d : String) : (sleepCall st d).2.2 ≤ 1 :=
  sleep_trips_le st d

theorem activityCall_trips (st : Store) (d : String) : (activityCall st d).2.2 ≤ 1 :=
  activity_trips_le st d

theorem reportCall_trips (st : Store) (sd ed : Option String) (t : Date) :
    (reportCall st sd ed t).2.2 = 3 := rfl

theorem callToolStrings_ok_trips (n : String) (args : List String) (st : Store) (t : Date)
    (v : String × Store × Nat) (h : callToolStrings n args st t = .ok v) : v.2.2 ≤ 3 := by
  unfold callToolStrings at h
  split at h
  · split at h
    · injection h with h2; subst h2; exact le_trans (sleepCall_trips _ _) (by omega)
    · exact Except.noConfusion h
  · split at h
    · split at h
      · injection h with h2; subst h2; exact le_trans (activityCall_trips _ _) (by omega)
      · exact Except.noConfusion h
    · split at h
      · split at h
        · injection h with h2; subst h2
          exact le_trans (dynamic_trips_eq _ _ _ _ _ _).le (by omega)
        · exact Except.noConfusion h
      · split at h
        · split at h
          · injection h with h2; subst h2; exact (reportCall_trips _ _ _ _).le
          · injection h with h2; subst h2; exact (reportCall_trips _ _ _ _).le
          · injection h with h2; subst h2; exact (reportCall_trips _ _ _ _).le
          · exact Except.noConfusion h
        · exact Except.noConfusion h

theorem secondCall_ok_trips (n : String) (args : List String) (st : Store) (t : Date)
    (v : String × Store × Nat) (h : secondCall n args st t = .ok v) : v.2.2 ≤ 3 := by
  unfold secondCall at h
  split at h
  · split at h
    · split at h
      · exact Except.noConfusion h
      · split at h
        · split at h
          · exact Except.noConfusion h
          · split at h
            · split at h
              · exact Except.noConfusion h
              · injection h with h2; subst h2
                exact le_trans (log_trips_le _ _ _ _ _ _) (by omega)
            · exact Except.noConfusion h
        · exact Except.noConfusion h
    · exact Except.noConfusion h
  · split at h
    · split at h
      · injection h with h2; subst h2; exact (reportCall_trips _ _ _ _).le
      · injection h with h2; subst h2; exact (reportCall_trips _ _ _ _).le
      · injection h with h2; subst h2; exact (reportCall_trips _ _ _ _).le
    · exact callToolStrings_ok_trips _ _ _ _ _ h

theorem dispatchParsed_counts (uq tn : String) (ti : List String)
    (synth : String → Except String String) (store : Store) (today : Date)
    (profile : UserProfile) :
    (dispatchParsed uq tn ti synth store today profile).llmCalls ≤ 2 ∧
    (dispatchParsed uq tn ti synth store today profile).storeTrips ≤ 6 ∧
    (dispatchParsed uq tn ti synth store today profile).toolInvocations ≤ 2 := by
  suffices hgen : ∀ r, dispatchParsed uq tn ti synth store today profile = r →
      r.llmCalls ≤ 2 ∧ r.storeTrips ≤ 6 ∧ r.toolInvocations ≤ 2 by
    exact hgen _ rfl
  intro r hr
  unfold dispatchParsed at hr
  split at hr
  · split at hr
    · subst hr
      exact ⟨(by omega : (1:Nat) ≤ 2), (by omega : (0:Nat) ≤ 6), (by omega : (0:Nat) ≤ 2)⟩
    · rename_i res1 store1 t1 heq
      have ht1 : t1 ≤ 3 := callToolStrings_ok_trips _ _ _ _ _ heq
      split at hr
      · subst hr
        exact ⟨(by omega : (1:Nat) ≤ 2), le_trans ht1 (by omega), (by omega : (1:Nat) ≤ 2)⟩
      · rename_i res2 store2 t2 heq2
        have ht2 : t2 ≤ 3 := secondCall_ok_trips _ _ _ _ _ heq2
        split at hr
        · subst hr
          exact ⟨(by omega : (1:Nat) ≤ 2), (by omega : t1 + t2 ≤ 6),
            (by omega : (2:Nat) ≤ 2)⟩
        · split at hr
          · subst hr
            exact ⟨(by omega : (2:Nat) ≤ 2), (by omega : t1 + t2 ≤ 6),
              (by omega : (2:Nat) ≤ 2)⟩
          · subst hr
            exact ⟨(by omega : (2:Nat) ≤ 2), (by omega : t1 + t2 ≤ 6),
              (by omega : (2:Nat) ≤ 2)⟩
  · subst hr
    exact ⟨(by omega : (1:Nat) ≤ 2), (by omega : (0:Nat) ≤ 6), (by omega : (0:Nat) ≤ 2)⟩

theorem dispatchToolCall_counts (uq dec : String)
    (synth : String → Except String String) (store : Store) (today : Date)
    (profile : UserProfile) :
    (dispatchToolCall uq dec synth store today profile).llmCalls ≤ 2 ∧
    (dispatchToolCall uq dec synth store today profile).storeTrips ≤ 6 ∧
    (dispatchToolCall uq dec synth store today profile).toolInvocations ≤ 2 := by
  suffices hgen : ∀ r, dispatchToolCall uq dec synth store today profile = r →
      r.llmCalls ≤ 2 ∧ r.storeTrips ≤ 6 ∧ r.toolInvocations ≤ 2 by
    exact hgen _ rfl
  intro r hr
  unfold dispatchToolCall at hr
  split at hr
  · rw [← hr]; exact dispatchParsed_counts _ _ _ _ _ _ _
  · subst hr
    exact ⟨(by omega : (1:Nat) ≤ 2), (by omega : (0:Nat) ≤ 6), (by omega : (0:Nat) ≤ 2)⟩

theorem processQuery_counts (uq : String) (dres : Except String String)
    (synth : String → Except String String) (store : Store) (today : Date)
    (profile : UserProfile) :
    (processQuery uq dres synth store today profile).llmCalls ≤ 2 ∧
    (processQuery uq dres synth store today profile).storeTrips ≤ 6 ∧
    (processQuery uq dres synth store today profile).toolInvocations ≤ 2 := by
  suffices hgen : ∀ r, processQuery uq dres synth store today profile = r →
      r.llmCalls ≤ 2 ∧ r.storeTrips ≤ 6 ∧ r.toolInvocations ≤ 2 by
    exact hgen _ rfl
  intro r hr
  unfold processQuery at hr
  split at hr
  · subst hr
    exact ⟨(by omega : (1:Nat) ≤ 2), (by omega : (0:Nat) ≤ 6), (by omega : (0:Nat) ≤ 2)⟩
  · split at hr
    · rw [← hr]; exact dispatchToolCall_counts _ _ _ _ _ _
    · split at hr
      · subst hr
        exact ⟨(by omega : (1:Nat) ≤ 2), (by omega : (0:Nat) ≤ 6), (by omega : (0:Nat) ≤ 2)⟩
      · subst hr
        exact ⟨(by omega : (1:Nat) ≤ 2), (by omega : (0:Nat) ≤ 6), (by omega : (0:Nat) ≤ 2)⟩

theorem dispatchParsed_synth_error (uq tn : String) (ti : List String)
    (synth : String → Except String String) (store : Store) (today : Date)
    (profile : UserProfile) (m : String)
    (hsy : ∀ p, synth p = Except.error m) :
    ∀ r, dispatchParsed uq tn ti synth store today profile = r →
      r.llmCalls = 2 → r.reply = execErrorMsg m := by
  intro r hr
  unfold dispatchParsed at hr
  split at hr
  · split at hr
    · subst hr; intro h2
      have hx : (1 : Nat) = 2 := h2
      omega
    · rename_i res1 store1 t1 heq
      split at hr
      · subst hr; intro h2
        have hx : (1 : Nat) = 2 := h2
        omega
      · rename_i res2 store2 t2 heq2
        split at hr
        · subst hr; intro h2
          have hx : (1 : Nat) = 2 := h2
          omega
        · rename_i coaching heqc
          split at hr
          · rename_i er heqs
            subst hr; intro _
            have hm := hsy (formatPrompt res2 uq coaching)
            rw [heqs] at hm
            injection hm with hm2
            show execErrorMsg er = execErrorMsg m
            rw [hm2]
          · rename_i ans heqs
            rw [hsy] at heqs
            exact Except.noConfusion heqs
  · subst hr; intro h2
    have hx : (1 : Nat) = 2 := h2
    omega

theorem dispatchToolCall_synth_error (uq dec : String)
    (synth : String → Except String String) (store : Store) (today : Date)
    (profile : UserProfile) (m : String)
    (hsy : ∀ p, synth p = Except.error m) :
    ∀ r, dispatchToolCall uq dec synth store today profile = r →
      r.llmCalls = 2 → r.reply = execErrorMsg m := by
  intro r hr
  unfold dispatchToolCall at hr
  split at hr
  · exact dispatchParsed_synth_error _ _ _ _ _ _ _ _ hsy _ hr
  · subst hr; intro h2
    have hx : (1 : Nat) = 2 := h2
    omega

/-- C5 amended: whenever the synthesis completion is attempted (both
completion calls made) and the synthesis oracle fails with message `m`,
`process_query` catches the failure in its dispatch-stage handler and
returns the `execErrorMsg m` reply normally — no fault propagates to the
caller. -/
theorem c5_amended_synthesis_failure_reply (uq : String) (dres : Except String String)
    (synth : String → Except String String) (store : Store) (today : Date)
    (profile : UserProfile) (m : String)
    (hsy : ∀ p, synth p = Except.error m)
    (hllm : (processQuery uq dres synth store today profile).llmCalls = 2) :
    (processQuery uq dres synth store today profile).reply = execErrorMsg m := by
  suffices hgen : ∀ r, processQuery uq dres synth store today profile = r →
      r.llmCalls = 2 → r.reply = execErrorMsg m by
    exact hgen _ rfl hllm
  intro r hr
  unfold processQuery at hr
  split at hr
  · subst hr; intro h2
    have hx : (1 : Nat) = 2 := h2
    omega
  · split at hr
    · exact dispatchToolCall_synth_error _ _ _ _ _ _ _ hsy _ hr
    · split at hr
      · subst hr; intro h2
        have hx : (1 : Nat) = 2 := h2
        omega
      · subst hr; intro h2
        have hx : (1 : Nat) = 2 := h2
        omega

theorem c5_amended_witness :
    (processQuery "q" (.ok "ACTION: TOOL_CALL | get_oura_activity_steps | 2025-03-01")
      (fun _ => .error "boom") emptyStore ⟨2025, 6, 10⟩
      (loadUserProfile (some ⟨none, none, none, none⟩))).reply = execErrorMsg "boom" :=
  c5_amended_synthesis_failure_reply "q" _ _ emptyStore ⟨2025, 6, 10⟩ _ "boom"
    (fun _ => rfl) rfl

/-- C4 amended: the readiness window falls back per-field — no arguments
give `[today-3, today]`; an unparseable (or empty) end date falls back to
`today`, an unparseable start date to `end - 3 days`; a parseable date is
taken as given (so no `start <= end` normalisation ever happens) — and the
computation is total, never raising. -/
theorem c4_amended_window_fallbacks (t : Date) :
    readinessWindow none none t = (t.subDays 3, t)
    ∧ (∀ s ed, parseDate s = none →
        readinessWindow (some s) ed t = readinessWindow none ed t)
    ∧ (∀ s sd, parseDate s = none →
        readinessWindow sd (some s) t = readinessWindow sd none t)
    ∧ (∀ s e sd, parseDate s = some e →
        readinessWindow sd (some s) t = readinessWindow sd none e)
    ∧ (∀ s d ed, parseDate s = some d →
        (readinessWindow (some s) ed t).1 = d) := by
  refine ⟨rfl, ?_, ?_, ?_, ?_⟩
  · intro s ed hs
    unfold readinessWindow
    by_cases he : s = ""
    · simp [he]
    · simp [he, hs]
  · intro s sd hs
    unfold readinessWindow
    by_cases he : s = ""
    · simp [he]
    · simp [he, hs]
  · intro s e sd hs
    unfold readinessWindow
    by_cases he : s = ""
    · subst he; simp [parseDate, pySplit, splitCharAux] at hs
    · simp [he, hs]
  · intro s d ed hs
    unfold readinessWindow
    by_cases he : s = ""
    · subst he; simp [parseDate, pySplit, splitCharAux] at hs
    · simp [he, hs]

theorem c4_amended_witness :
    readinessWindow none none ⟨2025, 6, 10⟩ = (⟨2025, 6, 7⟩, ⟨2025, 6, 10⟩)
    ∧ readinessWindow (some "garbage") none ⟨2025, 6, 10⟩ =
        readinessWindow none none ⟨2025, 6, 10⟩
    ∧ readinessWindow none (some "junk") ⟨2025, 6, 10⟩ =
        readinessWindow none none ⟨2025, 6, 10⟩
    ∧ readinessWindow none (some "2025-05-01") ⟨2025, 6, 10⟩ =
        readinessWindow none none ⟨2025, 5, 1⟩
    ∧ (readinessWindow (some "2025-01-05") none ⟨2025, 6, 10⟩).1 = ⟨2025, 1, 5⟩ := by
  have h := c4_amended_window_fallbacks ⟨2025, 6, 10⟩
  exact ⟨h.1.trans (by decide), h.2.1 "garbage" none rfl, h.2.2.1 "junk" none rfl,
    h.2.2.2.1 "2025-05-01" ⟨2025, 5, 1⟩ none rfl,
    h.2.2.2.2 "2025-01-05" ⟨2025, 1, 5⟩ none rfl⟩

/-- C7: a typed `log_gym_set` call with an empty exercise name or a
non-positive weight / reps / sets returns the ValidationError string with
the store unchanged; a valid call appends exactly one workout record and
returns the confirmation string; and a dispatch-stage float-coercion
failure aborts with the `ValueError` text before any insertion. -/
theorem c7_log_gym_set_validation_and_insert :
    (∀ (store : Store) (dt ex : String) (w : ℚ) (r s : Int),
      (parseDate dt).isSome →
      (ex = "" ∨ w ≤ 0 ∨ r ≤ 0 ∨ s ≤ 0) →
      log_gym_set store dt ex w r s = (validationMsg, store, 0))
    ∧ (∀ (store : Store) (dt ex : String) (w : ℚ) (r s : Int) (d : Date),
      parseDate dt = some d → ex ≠ "" → 0 < w → 0 < r → 0 < s →
      log_gym_set store dt ex w r s =
        (logConfirmMsg dt ex w r s,
          ⟨store.oura_sleep, store.oura_activity,
            store.manual_workouts ++ [⟨d, ex, w, r, s⟩]⟩, 1))
    ∧ (∀ (store : Store) (today : Date) (a b c : String) (l : List String),
      parseFloat10 c = none →
      secondCall "log_gym_set" (a :: b :: c :: l) store today =
        Except.error (floatErrMsg c)) := by
  refine ⟨?_, ?_, ?_⟩
  · intro store dt ex w r s hd hbad
    obtain ⟨d, hd⟩ := Option.isSome_iff_exists.mp hd
    have hcond : ¬(ex ≠ "" ∧ 0 < w ∧ 0 < r ∧ 0 < s) := by
      rintro ⟨h1, h2, h3, h4⟩
      rcases hbad with h | h | h | h
      · exact h1 h
      · exact absurd h2 (not_lt.mpr h)
      · exact absurd h3 (not_lt.mpr h)
      · exact absurd h4 (not_lt.mpr h)
    unfold log_gym_set
    rw [hd]
    simp [hcond]
  · intro store dt ex w r s d hd h1 h2 h3 h4
    unfold log_gym_set
    rw [hd]
    simp [h1, h2, h3, h4]
  · intro store today a b c l hc
    unfold secondCall
    rw [if_pos rfl]
    simp only [hc]

theorem c7_witness :
    log_gym_set emptyStore "2025-10-25" "Squat" 0 5 3 = (validationMsg, emptyStore, 0)
    ∧ log_gym_set emptyStore "2025-10-25" "Squat" 100 5 3 =
        (logConfirmMsg "2025-10-25" "Squat" 100 5 3,
          ⟨[], [], [⟨⟨2025, 10, 25⟩, "Squat", 100, 5, 3⟩]⟩, 1)
    ∧ secondCall "log_gym_set" ["2025-10-25", "Squat", "abc", "5", "3"]
        emptyStore ⟨2025, 6, 10⟩ = Except.error (floatErrMsg "abc") := by
  have h := c7_log_gym_set_validation_and_insert
  refine ⟨h.1 emptyStore "2025-10-25" "Squat" 0 5 3 rfl (Or.inr (Or.inl le_rfl)),
    h.2.1 emptyStore "2025-10-25" "Squat" 100 5 3 ⟨2025, 10, 25⟩ rfl
      (by decide) (by norm_num) (by norm_num) (by norm_num),
    h.2.2 emptyStore ⟨2025, 6, 10⟩ "2025-10-25" "Squat" "abc" ["5", "3"] rfl⟩

/-- C3 amended: every query makes at most two completion-service calls, but
the selected tool is invoked up to twice, so a run performs up to six store
round trips (three per readiness invocation; up to two for the single-query
tools; at most one insert for `log_gym_set`), and at most two tool-body
executions. -/
theorem c3_amended_resource_bounds (uq : String) (dres : Except String String)
    (synth : String → Except String String) (store : Store) (today : Date)
    (profile : UserProfile) :
    (processQuery uq dres synth store today profile).llmCalls ≤ 2 ∧
    (processQuery uq dres synth store today profile).storeTrips ≤ 6 ∧
    (processQuery uq dres synth store today profile).toolInvocations ≤ 2 :=
  processQuery_counts uq dres synth store today profile

theorem dispatchParsed_log_valid
    (uq a b c d e : String) (rest : List String)
    (synth : String → Except String String) (store : Store) (today pd : Date)
    (profile : UserProfile) (w : ℚ) (r s : Int)
    (hpd : parseDate a = some pd)
    (ha : a ≠ "") (hb : b ≠ "") (hc : c ≠ "") (hd : d ≠ "") (he : e ≠ "")
    (hrest : rest.filter (fun i => i != "") = [])
    (hw : parseFloat10 c = some w) (hr : parseIntPy d = some r)
    (hs : parseIntPy e = some s)
    (hw0 : 0 < w) (hr0 : 0 < r) (hs0 : 0 < s) :
    dispatchParsed uq "log_gym_set" (a :: b :: c :: d :: e :: rest) synth store today profile =
      match synth (formatPrompt (logConfirmMsg a b w r s) uq "") with
      | .error er => ⟨execErrorMsg er,
          ⟨store.oura_sleep, store.oura_activity,
            store.manual_workouts ++ [⟨pd, b, w, r, s⟩]⟩, 2, 1, 2⟩
      | .ok ans => ⟨ans,
          ⟨store.oura_sleep, store.oura_activity,
            store.manual_workouts ++ [⟨pd, b, w, r, s⟩]⟩, 2, 1, 2⟩ := by
  have hclean : (a :: b :: c :: d :: e :: rest).filter (fun i => i != "") = [a, b, c, d, e] := by
    simp [List.filter_cons, ha, hb, hc, hd, he, hrest]
  have hfirst : callToolStrings "log_gym_set" [a, b, c, d, e] store today =
      .ok (internalLogErrorMsg, store, 0) := by
    unfold callToolStrings
    rw [if_neg (by decide), if_neg (by decide), if_pos rfl]
    show Except.ok (log_gym_set_dynamic store a b c d e) = _
    unfold log_gym_set_dynamic
    rw [hpd]
    simp [hb]
  have hsecond : secondCall "log_gym_set" (a :: b :: c :: d :: e :: rest) store today =
      .ok (logConfirmMsg a b w r s,
        ⟨store.oura_sleep, store.oura_activity,
          store.manual_workouts ++ [⟨pd, b, w, r, s⟩]⟩, 1) := by
    unfold secondCall
    rw [if_pos rfl]
    simp only [hw, hr, hs]
    unfold log_gym_set
    rw [hpd]
    simp [hb, hw0, hr0, hs0]
  have hcoach : coachingBlock "log_gym_set" profile = .ok "" := by
    unfold coachingBlock
    rw [if_neg (by decide)]
  unfold dispatchParsed
  rw [if_pos (by decide)]
  rw [hclean]
  simp only [hfirst, hsecond, hcoach]

/-- C2 amended: dispatch splits the decision line on `|` and trims each
field, but empty fields are dropped only for the discarded first
invocation; the reply-producing invocation uses the raw trimmed fields:
`log_gym_set` takes the first five positionally, coerced in declared order
(date string, string, float, int, int) — shown by the inserted record —
while other tools receive all fields, so a retained empty field causes an
arity `TypeError` converted to the dispatch error reply. -/
theorem c2_amended_dispatch_argument_policy :
    (∀ (uq a b c d e : String) (rest : List String)
      (synth : String → Except String String) (store : Store) (today pd : Date)
      (profile : UserProfile) (w : ℚ) (r s : Int),
      parseDate a = some pd →
      a ≠ "" → b ≠ "" → c ≠ "" → d ≠ "" → e ≠ "" →
      rest.filter (fun i => i != "") = [] →
      parseFloat10 c = some w → parseIntPy d = some r → parseIntPy e = some s →
      0 < w → 0 < r → 0 < s →
      (dispatchParsed uq "log_gym_set" (a :: b :: c :: d :: e :: rest)
          synth store today profile).store =
        ⟨store.oura_sleep, store.oura_activity,
          store.manual_workouts ++ [⟨pd, b, w, r, s⟩]⟩)
    ∧ (∀ (uq day : String) (synth : String → Except String String)
      (store : Store) (today : Date) (profile : UserProfile),
      day ≠ "" →
      (dispatchParsed uq "get_oura_sleep_score" [day, ""] synth store today profile).reply =
        execErrorMsg (arityMsg "get_oura_sleep_score")) := by
  constructor
  · intro uq a b c d e rest synth store today pd profile w r s
    intro hpd ha hb hc hd he hrest hw hr hs hw0 hr0 hs0
    rw [dispatchParsed_log_valid uq a b c d e rest synth store today pd profile w r s
      hpd ha hb hc hd he hrest hw hr hs hw0 hr0 hs0]
    cases synth (formatPrompt (logConfirmMsg a b w r s) uq "") <;> rfl
  · intro uq day synth store today profile hday
    have hclean : ([day, ""] : List String).filter (fun i => i != "") = [day] := by
      simp [List.filter_cons, hday]
    have hfirst : callToolStrings "get_oura_sleep_score" [day] store today =
        .ok (sleepCall store day) := by
      unfold callToolStrings
      rw [if_pos rfl]
    have hsecond : secondCall "get_oura_sleep_score" [day, ""] store today =
        .error (arityMsg "get_oura_sleep_score") := by
      unfold secondCall
      rw [if_neg (by decide), if_neg (by decide)]
      unfold callToolStrings
      rw [if_pos rfl]
    unfold dispatchParsed
    rw [if_pos (by decide)]
    rw [hclean]
    simp only [hfirst]
    rw [show (sleepCall store day).2.1 = store from rfl]
    simp only [hsecond]

theorem c2_amended_witness :
    (dispatchParsed "q" "log_gym_set" ["2025-10-25", "Squat", "100", "5", "3"]
      (fun p => .ok p) emptyStore ⟨2025, 6, 10⟩ (loadUserProfile none)).store =
      ⟨[], [], [⟨⟨2025, 10, 25⟩, "Squat", 100, 5, 3⟩]⟩
    ∧ (dispatchParsed "q" "get_oura_sleep_score" ["2025-03-01", ""]
        (fun p => .ok p) emptyStore ⟨2025, 6, 10⟩ (loadUserProfile none)).reply =
      execErrorMsg (arityMsg "get_oura_sleep_score") := by
  have h := c2_amended_dispatch_argument_policy
  exact ⟨h.1 "q" "2025-10-25" "Squat" "100" "5" "3" [] (fun p => .ok p)
      emptyStore ⟨2025, 6, 10⟩ ⟨2025, 10, 25⟩ (loadUserProfile none) 100 5 3
      rfl (by decide) (by decide) (by decide) (by decide) (by decide) rfl
      rfl rfl rfl (by norm_num) (by norm_num) (by norm_num),
    h.2 "q" "2025-03-01" (fun p => .ok p) emptyStore ⟨2025, 6, 10⟩
      (loadUserProfile none) (by decide)⟩

/-- C10 amended: the tool body is executed at most twice per query; for a
valid five-argument `log_gym_set` decision both executions occur, the first
(string-argument) one failing inside the tool without inserting, so exactly
one workout record is inserted. -/
theorem c10_amended_double_invocation :
    (∀ (uq a b c d e : String) (rest : List String)
      (synth : String → Except String String) (store : Store) (today pd : Date)
      (profile : UserProfile) (w : ℚ) (r s : Int),
      parseDate a = some pd →
      a ≠ "" → b ≠ "" → c ≠ "" → d ≠ "" → e ≠ "" →
      rest.filter (fun i => i != "") = [] →
      parseFloat10 c = some w → parseIntPy d = some r → parseIntPy e = some s →
      0 < w → 0 < r → 0 < s →
      (dispatchParsed uq "log_gym_set" (a :: b :: c :: d :: e :: rest)
          synth store today profile).toolInvocations = 2
      ∧ (dispatchParsed uq "log_gym_set" (a :: b :: c :: d :: e :: rest)
          synth store today profile).store.manual_workouts =
        store.manual_workouts ++ [⟨pd, b, w, r, s⟩])
    ∧ (∀ (uq : String) (dres : Except String String)
      (synth : String → Except String String) (store : Store) (today : Date)
      (profile : UserProfile),
      (processQuery uq dres synth store today profile).toolInvocations ≤ 2) := by
  constructor
  · intro uq a b c d e rest synth store today pd profile w r s
    intro hpd ha hb hc hd he hrest hw hr hs hw0 hr0 hs0
    rw [dispatchParsed_log_valid uq a b c d e rest synth store today pd profile w r s
      hpd ha hb hc hd he hrest hw hr hs hw0 hr0 hs0]
    cases synth (formatPrompt (logConfirmMsg a b w r s) uq "") <;> exact ⟨rfl, rfl⟩
  · intro uq dres synth store today profile
    exact (processQuery_counts uq dres synth store today profile).2.2

theorem c10_amended_witness :
    (dispatchParsed "q" "log_gym_set" ["2025-10-25", "Squat", "100", "5", "3"]
      (fun p => .ok p) emptyStore ⟨2025, 6, 10⟩ (loadUserProfile none)).toolInvocations = 2
    ∧ (dispatchParsed "q" "log_gym_set" ["2025-10-25", "Squat", "100", "5", "3"]
        (fun p => .ok p) emptyStore ⟨2025, 6, 10⟩ (loadUserProfile none)).store.manual_workouts =
      [⟨⟨2025, 10, 25⟩, "Squat", 100, 5, 3⟩] := by
  have h := (c10_amended_double_invocation.1 "q" "2025-10-25" "Squat" "100" "5" "3" []
    (fun p => .ok p) emptyStore ⟨2025, 6, 10⟩ ⟨2025, 10, 25⟩ (loadUserProfile none) 100 5 3
    rfl (by decide) (by decide) (by decide) (by decide) (by decide) rfl
    rfl rfl rfl (by norm_num) (by norm_num) (by norm_num))
  exact ⟨h.1, h.2⟩
